import Mathlib

/-!
Shallow embedding of the alx-polly server actions
(`app/lib/actions/response-actions.ts`, `app/lib/actions/poll-actions.ts`)
together with the store schema and row-level-security policies declared in the
repository README.  The backing platform (session provider and data store) is
modelled by explicit parameters: the current session is an `Option String`
(the authenticated user id, if any), and store-call outcomes that are not
determined by the modelled table contents (injected failures) are passed in as
explicit behaviour records.  Each action returns its JavaScript result value
together with the resulting table contents and the number of store reads and
writes it performed, so that "performs no insert" style properties can be
stated directly.
-/

set_option autoImplicit false

namespace AlxPolly

/-- An error value surfaced by the store client: a `code` and a `message`
field, as inspected by the TypeScript code (`selectError.code`,
`error.message`). -/
structure StoreErr where
  code : String
  message : String
deriving DecidableEq

/-- A row of the `votes` table.  The README schema declares `poll_id`,
`option_id` and `user_id` (nullable); the emoji feature additionally writes
`content` (the emoji) and `type` (the discriminator, `'emoji'`).  Ballot-vote
rows leave `content`/`type` absent, emoji rows leave `option_id` absent. -/
structure VoteRow where
  poll_id : String
  user_id : Option String
  option_id : Option String
  content : Option String
  type : Option String
deriving DecidableEq

/-- Embedding of the JavaScript expression `Array.from(str)`: iterating a
string yields its Unicode code points, one per element. -/
def jsArrayFrom (s : String) : List Char :=
  s.data

/-- Embedding of the JavaScript string property `str.length`: the number of
UTF-16 code units (code points above U+FFFF count as a surrogate pair). -/
def jsUtf16Length (s : String) : Nat :=
  (s.data.map (fun c => if c.val < 65536 then 1 else 2)).sum

/-- Embedding of the refinement on the `emoji` field of
`emojiResponseSchema`: `(str) => Array.from(str).length === 1`. -/
def emojiRefine (s : String) : Bool :=
  (jsArrayFrom s).length == 1

/-- Hexadecimal digit test, as used by the uuid pattern. -/
def isHexDigit (c : Char) : Bool :=
  (('0' ≤ c) && (c ≤ '9')) || (('a' ≤ c) && (c ≤ 'f')) || (('A' ≤ c) && (c ≤ 'F'))

/-- Split a character list at every hyphen (the groups of the uuid pattern). -/
def splitDash : List Char → List (List Char)
  | [] => [[]]
  | c :: cs =>
    match splitDash cs with
    | [] => [[]]
    | g :: gs => if c = '-' then [] :: g :: gs else (c :: g) :: gs

/-- Embedding of the zod `z.string().uuid()` check on `pollId`: the string
must consist of five hyphen-separated hexadecimal groups of lengths
8-4-4-4-12. -/
def isUUID (s : String) : Bool :=
  ((splitDash s.data).map List.length == [8, 4, 4, 4, 12]) &&
    (splitDash s.data).all (fun g => g.all isHexDigit)

/-- Embedding of `emojiResponseSchema.safeParse({ pollId, emoji })`: the list
of issue messages, in schema key order (`pollId` first, then `emoji`), with
zod's default uuid message and the custom refinement message. -/
def zodIssues (pollId emoji : String) : List String :=
  (if isUUID pollId then [] else ["Invalid uuid"]) ++
    (if emojiRefine emoji then [] else ["Emoji must be a single character."])

/-- Embedding of `validation.error.issues[0].message`: the first issue. -/
def firstZodIssue (pollId emoji : String) : Option String :=
  (zodIssues pollId emoji).head?

/-- Embedding of the JavaScript expression
`error.message || 'An unexpected error occurred on the server.'`
in the catch block: the empty string is falsy. -/
def jsOrMsg (m : String) : String :=
  if m = "" then "An unexpected error occurred on the server." else m

/-- The value returned by `submitEmojiResponse`:
`{ success: boolean; error?: string }`. -/
structure ActionResult where
  success : Bool
  error : Option String
deriving DecidableEq

/-- Injected store-call outcomes for one run of `submitEmojiResponse`.
`selectErr = none` means the duplicate pre-check select behaves according to
the modelled table contents; `selectErr = some e` means the select call fails
with `e`.  `insertErr = none` means the insert succeeds; `insertErr = some e`
means it fails with `e` (for example a unique-constraint violation raised by
a racing duplicate). -/
structure RespBeh where
  selectErr : Option StoreErr
  insertErr : Option StoreErr
deriving DecidableEq

/-- The store behaves normally: the select reflects the table contents and
the insert succeeds. -/
def okBeh : RespBeh :=
  ⟨none, none⟩

/-- Full outcome of one `submitEmojiResponse` call: the returned value, the
resulting `votes` table, and the number of store reads (`selects`) and write
attempts (`inserts`) performed. -/
structure RespOutcome where
  res : ActionResult
  store : List VoteRow
  selects : Nat
  inserts : Nat
deriving DecidableEq

/-- The filter of the duplicate pre-check:
`.eq('poll_id', pollId).eq('user_id', user.id).eq('content', emoji)`. -/
def matchesTriple (pollId uid emoji : String) (r : VoteRow) : Bool :=
  r.poll_id == pollId && r.user_id == some uid && r.content == some emoji

/-- Number of rows of the table matching the (poll, user, content) triple. -/
def countTriple (store : List VoteRow) (pollId uid emoji : String) : Nat :=
  (store.filter (matchesTriple pollId uid emoji)).length

/-- The insert step of `submitEmojiResponse`: one insert attempt of
`{ poll_id, user_id, content, type: 'emoji' }`; a failure is thrown and lands
in the catch block, which returns
`error.message || 'An unexpected error occurred on the server.'`. -/
def emojiInsertStep (beh : RespBeh) (store : List VoteRow)
    (pollId uid emoji : String) : RespOutcome :=
  match beh.insertErr with
  | some e => ⟨⟨false, some (jsOrMsg e.message)⟩, store, 1, 1⟩
  | none => ⟨⟨true, none⟩, store ++ [⟨pollId, some uid, none, some emoji, some "emoji"⟩], 1, 1⟩

/-- Embedding of `submitEmojiResponse(pollId, emoji)` from
`app/lib/actions/response-actions.ts`.  Control flow mirrors the source:
authentication gate, zod validation, duplicate pre-check with
`.single()` (whose "no rows" outcome `PGRST116` is swallowed; any other
select error is thrown and caught), then the insert.  The pre-check select
reports an existing row exactly when the table holds exactly one matching
row, which is `.single()` semantics (zero or several matching rows yield the
`PGRST116` error and null data). -/
def submitEmojiResponse (session : Option String) (beh : RespBeh)
    (store : List VoteRow) (pollId emoji : String) : RespOutcome :=
  match session with
  | none => ⟨⟨false, some "You must be logged in to respond."⟩, store, 0, 0⟩
  | some uid =>
    match firstZodIssue pollId emoji with
    | some msg => ⟨⟨false, some msg⟩, store, 0, 0⟩
    | none =>
      match beh.selectErr with
      | some e =>
        if e.code = "PGRST116" then
          emojiInsertStep beh store pollId uid emoji
        else
          ⟨⟨false, some (jsOrMsg e.message)⟩, store, 1, 0⟩
      | none =>
        if countTriple store pollId uid emoji = 1 then
          ⟨⟨false, some "You have already responded with this emoji."⟩, store, 1, 0⟩
        else
          emojiInsertStep beh store pollId uid emoji

/-- The generic fallback message is substituted exactly when the thrown
error's message is the empty string, so the caught-error message is never
empty. -/
theorem jsOrMsg_ne_empty (m : String) : jsOrMsg m ≠ "" := by
  unfold jsOrMsg
  split
  · decide
  · assumption

/-- Every message produced by the zod schema embedding is non-empty. -/
theorem zodIssue_ne_empty (pollId emoji m : String)
    (h : m ∈ zodIssues pollId emoji) : m ≠ "" := by
  unfold zodIssues at h
  split at h <;> split at h <;> simp at h
  · subst h; decide
  · subst h; decide
  · rcases h with rfl | rfl <;> decide

/-- Shape of the insert step's result: success carries no error, failure
carries a non-empty message. -/
theorem emojiInsertStep_shape (beh : RespBeh) (store : List VoteRow)
    (pollId uid emoji : String) :
    ((emojiInsertStep beh store pollId uid emoji).res.success = true →
        (emojiInsertStep beh store pollId uid emoji).res.error = none) ∧
    ((emojiInsertStep beh store pollId uid emoji).res.success = false →
        ∃ m, (emojiInsertStep beh store pollId uid emoji).res.error = some m ∧ m ≠ "") := by
  cases h : beh.insertErr with
  | some e =>
    refine ⟨by simp [emojiInsertStep, h], fun _ => ⟨jsOrMsg e.message, by simp [emojiInsertStep, h], jsOrMsg_ne_empty _⟩⟩
  | none =>
    refine ⟨fun _ => by simp [emojiInsertStep, h], by simp [emojiInsertStep, h]⟩

/-- Inserting the row written by the emoji action bumps the matching-triple
row count by exactly one. -/
theorem countTriple_snoc_match (store : List VoteRow) (pollId uid emoji : String) :
    countTriple (store ++ [⟨pollId, some uid, none, some emoji, some "emoji"⟩]) pollId uid emoji =
      countTriple store pollId uid emoji + 1 := by
  simp [countTriple, List.filter_append, matchesTriple]

/-- C3: with no authenticated session, `submitEmojiResponse` returns
`{success: false, error: "You must be logged in to respond."}` for every
poll identifier and content value (valid or not) and under every store
behaviour, and it performs no store access (`selects = 0`, `inserts = 0`,
table unchanged); authentication is checked before validation, so the
unauthenticated error takes precedence over invalid-input errors. -/
theorem submitEmojiResponse_unauthenticated (beh : RespBeh) (store : List VoteRow)
    (pollId emoji : String) :
    submitEmojiResponse none beh store pollId emoji =
      ⟨⟨false, some "You must be logged in to respond."⟩, store, 0, 0⟩ :=
  rfl

/-- C4: for an authenticated user and a poll identifier that is not
UUID-shaped, `submitEmojiResponse` fails with the identifier-format message
`"Invalid uuid"` and performs zero store calls, whatever the content value —
in particular, when the content is malformed too, the reported error is
still the identifier-format error. -/
theorem submitEmojiResponse_invalid_pollId (uid : String) (beh : RespBeh)
    (store : List VoteRow) (pollId emoji : String) (h : isUUID pollId = false) :
    submitEmojiResponse (some uid) beh store pollId emoji =
      ⟨⟨false, some "Invalid uuid"⟩, store, 0, 0⟩ := by
  simp [submitEmojiResponse, firstZodIssue, zodIssues, h]

/-- Witness for C4 at the spec's scenario input `"not-a-uuid"`, with a
content value (`"ab"`) that violates the single-character rule as well. -/
theorem submitEmojiResponse_invalid_pollId_witness :
    isUUID "not-a-uuid" = false ∧
    submitEmojiResponse (some "u1") okBeh [] "not-a-uuid" "ab" =
      ⟨⟨false, some "Invalid uuid"⟩, [], 0, 0⟩ :=
  ⟨by decide, submitEmojiResponse_invalid_pollId "u1" okBeh [] "not-a-uuid" "ab" (by decide)⟩

/-- C1: for an authenticated user and valid input, under normal store
behaviour: if no row for the (poll, user, content) triple exists, the call
succeeds (`{success: true}`), performs exactly one insert, appends exactly
the new row, and the triple's row count becomes 1; if exactly one such row
already exists, the call returns
`{success: false, error: "You have already responded with this emoji."}`,
performs no insert, and leaves the table (hence the triple's row count of 1)
unchanged. -/
theorem submitEmojiResponse_first_and_duplicate (uid pollId emoji : String)
    (store : List VoteRow) (hu : isUUID pollId = true) (he : emojiRefine emoji = true) :
    (countTriple store pollId uid emoji = 0 →
        submitEmojiResponse (some uid) okBeh store pollId emoji =
          ⟨⟨true, none⟩, store ++ [⟨pollId, some uid, none, some emoji, some "emoji"⟩], 1, 1⟩ ∧
        countTriple (submitEmojiResponse (some uid) okBeh store pollId emoji).store pollId uid emoji = 1) ∧
    (countTriple store pollId uid emoji = 1 →
        submitEmojiResponse (some uid) okBeh store pollId emoji =
          ⟨⟨false, some "You have already responded with this emoji."⟩, store, 1, 0⟩) := by
  constructor
  · intro h0
    have hmain : submitEmojiResponse (some uid) okBeh store pollId emoji =
        ⟨⟨true, none⟩, store ++ [⟨pollId, some uid, none, some emoji, some "emoji"⟩], 1, 1⟩ := by
      simp [submitEmojiResponse, firstZodIssue, zodIssues, hu, he, okBeh, h0, emojiInsertStep]
    refine ⟨hmain, ?_⟩
    rw [hmain]
    simp [countTriple_snoc_match, h0]
  · intro h1
    simp [submitEmojiResponse, firstZodIssue, zodIssues, hu, he, okBeh, h1]

/-- Witness for C1 at the spec's scenario: poll
`"11111111-1111-1111-1111-111111111111"`, user `"u1"`, emoji `"👍"`; first
call on the empty table succeeds and stores one row, the identical second
call is rejected as a duplicate and stores nothing. -/
theorem submitEmojiResponse_first_and_duplicate_witness :
    (submitEmojiResponse (some "u1") okBeh [] "11111111-1111-1111-1111-111111111111" "👍" =
      ⟨⟨true, none⟩,
        [⟨"11111111-1111-1111-1111-111111111111", some "u1", none, some "👍", some "emoji"⟩], 1, 1⟩) ∧
    (submitEmojiResponse (some "u1") okBeh
        [⟨"11111111-1111-1111-1111-111111111111", some "u1", none, some "👍", some "emoji"⟩]
        "11111111-1111-1111-1111-111111111111" "👍" =
      ⟨⟨false, some "You have already responded with this emoji."⟩,
        [⟨"11111111-1111-1111-1111-111111111111", some "u1", none, some "👍", some "emoji"⟩], 1, 0⟩) := by
  constructor
  · have h := (submitEmojiResponse_first_and_duplicate "u1"
      "11111111-1111-1111-1111-111111111111" "👍" [] (by decide) (by decide)).1 (by decide)
    simpa using h.1
  · exact (submitEmojiResponse_first_and_duplicate "u1"
      "11111111-1111-1111-1111-111111111111" "👍"
      [⟨"11111111-1111-1111-1111-111111111111", some "u1", none, some "👍", some "emoji"⟩]
      (by decide) (by decide)).2 (by decide)

/-- C2 counterexample: a unique-constraint violation raised by the insert
(the racing-duplicate case) is not re-reported as the duplicate-response
message; the raw store error message is returned to the caller unmodified. -/
theorem submitEmojiResponse_raw_error_cex :
    (submitEmojiResponse (some "u1")
        ⟨none, some ⟨"23505", "duplicate key value violates unique constraint"⟩⟩ []
        "11111111-1111-1111-1111-111111111111" "👍").res.error =
      some "duplicate key value violates unique constraint" ∧
    (submitEmojiResponse (some "u1")
        ⟨none, some ⟨"23505", "duplicate key value violates unique constraint"⟩⟩ []
        "11111111-1111-1111-1111-111111111111" "👍").res.error ≠
      some "You have already responded with this emoji." := by
  constructor
  · decide
  · decide

/-- C2 (amended): when the insert fails — with a unique-constraint violation
or any other store error — `submitEmojiResponse` catches the thrown error
and returns its raw `message` field (substituting the generic fallback only
when the message is empty); no conversion of constraint violations into the
duplicate-response error takes place. -/
theorem submitEmojiResponse_insert_failure_raw (uid pollId emoji : String)
    (beh : RespBeh) (store : List VoteRow) (e : StoreErr)
    (hu : isUUID pollId = true) (he : emojiRefine emoji = true)
    (hsel : beh.selectErr = none) (hins : beh.insertErr = some e)
    (hcount : countTriple store pollId uid emoji ≠ 1) :
    submitEmojiResponse (some uid) beh store pollId emoji =
      ⟨⟨false, some (jsOrMsg e.message)⟩, store, 1, 1⟩ := by
  simp [submitEmojiResponse, firstZodIssue, zodIssues, hu, he, hsel, hcount,
    emojiInsertStep, hins]

/-- Witness for the amended C2: a concrete constraint-violation outcome on
the insert yields the raw message back. -/
theorem submitEmojiResponse_insert_failure_raw_witness :
    submitEmojiResponse (some "u1") ⟨none, some ⟨"23505", "boom"⟩⟩ []
        "11111111-1111-1111-1111-111111111111" "👍" =
      ⟨⟨false, some (jsOrMsg "boom")⟩, [], 1, 1⟩ :=
  submitEmojiResponse_insert_failure_raw "u1" "11111111-1111-1111-1111-111111111111" "👍"
    ⟨none, some ⟨"23505", "boom"⟩⟩ [] ⟨"23505", "boom"⟩
    (by decide) (by decide) rfl rfl (by decide)

/-- C9: `submitEmojiResponse` is total over every session and injected store
outcome and always returns a value of the declared result shape; on the
success path no error message is present, and on every failure path the
error is a non-empty string (an empty thrown message is replaced by the
generic server-error message). -/
theorem submitEmojiResponse_result_shape (session : Option String) (beh : RespBeh)
    (store : List VoteRow) (pollId emoji : String) :
    ((submitEmojiResponse session beh store pollId emoji).res.success = true →
        (submitEmojiResponse session beh store pollId emoji).res.error = none) ∧
    ((submitEmojiResponse session beh store pollId emoji).res.success = false →
        ∃ m, (submitEmojiResponse session beh store pollId emoji).res.error = some m ∧ m ≠ "") := by
  cases session with
  | none =>
    refine ⟨by simp [submitEmojiResponse], fun _ =>
      ⟨"You must be logged in to respond.", by simp [submitEmojiResponse], by decide⟩⟩
  | some uid =>
    cases hz : firstZodIssue pollId emoji with
    | some msg =>
      have hm : msg ∈ zodIssues pollId emoji := by
        unfold firstZodIssue at hz
        exact List.mem_of_mem_head? (Option.mem_def.mpr hz)
      refine ⟨by simp [submitEmojiResponse, hz], fun _ =>
        ⟨msg, by simp [submitEmojiResponse, hz], zodIssue_ne_empty pollId emoji msg hm⟩⟩
    | none =>
      cases hsel : beh.selectErr with
      | some e =>
        by_cases hc : e.code = "PGRST116"
        · have h := emojiInsertStep_shape beh store pollId uid emoji
          constructor
          · intro hs
            have h1 := h.1 (by simpa [submitEmojiResponse, hz, hsel, hc] using hs)
            simpa [submitEmojiResponse, hz, hsel, hc] using h1
          · intro hs
            obtain ⟨m, hm, hne⟩ := h.2 (by simpa [submitEmojiResponse, hz, hsel, hc] using hs)
            exact ⟨m, by simpa [submitEmojiResponse, hz, hsel, hc] using hm, hne⟩
        · refine ⟨by simp [submitEmojiResponse, hz, hsel, hc], fun _ =>
            ⟨jsOrMsg e.message, by simp [submitEmojiResponse, hz, hsel, hc], jsOrMsg_ne_empty _⟩⟩
      | none =>
        by_cases hc : countTriple store pollId uid emoji = 1
        · refine ⟨by simp [submitEmojiResponse, hz, hsel, hc], fun _ =>
            ⟨"You have already responded with this emoji.",
              by simp [submitEmojiResponse, hz, hsel, hc], by decide⟩⟩
        · have h := emojiInsertStep_shape beh store pollId uid emoji
          constructor
          · intro hs
            have := h.1 (by simpa [submitEmojiResponse, hz, hsel, hc] using hs)
            simpa [submitEmojiResponse, hz, hsel, hc] using this
          · intro hs
            obtain ⟨m, hm, hne⟩ := h.2 (by simpa [submitEmojiResponse, hz, hsel, hc] using hs)
            exact ⟨m, by simpa [submitEmojiResponse, hz, hsel, hc] using hm, hne⟩

/-- Witness for C9: a concrete failing call produces a non-empty error
message. -/
theorem submitEmojiResponse_result_shape_witness :
    ∃ m, (submitEmojiResponse none okBeh [] "p" "e").res.error = some m ∧ m ≠ "" :=
  (submitEmojiResponse_result_shape none okBeh [] "p" "e").2 rfl

/-- C10: the emoji content validator accepts a string exactly when it is a
single Unicode code point; `"👍"` (one code point encoded as two UTF-16
units) is accepted, while the skin-tone-modified `"👍🏽"` and the
joiner-sequence `"👨‍👩‍👧"` (several code points each) are rejected, with the
issue message `"Emoji must be a single character."`. -/
theorem emojiRefine_single_codepoint :
    (∀ s : String, emojiRefine s = true ↔ ∃ c : Char, jsArrayFrom s = [c]) ∧
    emojiRefine "👍" = true ∧ jsUtf16Length "👍" = 2 ∧
    emojiRefine "👍🏽" = false ∧ emojiRefine "👨‍👩‍👧" = false ∧
    firstZodIssue "11111111-1111-1111-1111-111111111111" "👍🏽" =
      some "Emoji must be a single character." := by
  refine ⟨fun s => ?_, by decide, by decide, by decide, by decide, by decide⟩
  simp [emojiRefine, List.length_eq_one]

/-- Witness for C10: a plain latin letter is a single code point and is
accepted by the validator. -/
theorem emojiRefine_single_codepoint_witness : emojiRefine "A" = true :=
  (emojiRefine_single_codepoint.1 "A").mpr ⟨'A', rfl⟩

/-- Injected store outcome for the single insert of `submitVote`. -/
structure VoteBeh where
  insertErr : Option StoreErr
deriving DecidableEq

/-- The ballot-vote insert succeeds. -/
def okVoteBeh : VoteBeh :=
  ⟨none⟩

/-- Outcome of one `submitVote` call: the returned `{ error }` value, the
resulting `votes` table and the store-call counts. -/
structure VoteOutcome where
  error : Option String
  store : List VoteRow
  selects : Nat
  inserts : Nat
deriving DecidableEq

/-- Embedding of `submitVote(pollId, optionId)` from
`app/lib/actions/poll-actions.ts`.  The source retrieves the session user
but performs no authentication gate (the login-requirement check is
commented out) and no duplicate pre-check: it inserts
`{ poll_id, user_id: user?.id ?? null, option_id }` unconditionally and, on
a store error, returns `error.message` directly. -/
def submitVote (session : Option String) (beh : VoteBeh) (store : List VoteRow)
    (pollId optionId : String) : VoteOutcome :=
  match beh.insertErr with
  | some e => ⟨some e.message, store, 0, 1⟩
  | none => ⟨none, store ++ [⟨pollId, session, some optionId, none, none⟩], 0, 1⟩

/-- The ballot-vote pair filter (poll, user). -/
def matchesPair (pollId : String) (uid : Option String) (r : VoteRow) : Bool :=
  r.poll_id == pollId && r.user_id == uid

/-- Number of rows of the table matching the (poll, user) pair. -/
def countPair (store : List VoteRow) (pollId : String) (uid : Option String) : Nat :=
  (store.filter (matchesPair pollId uid)).length

/-- C5 counterexample: with a row for (poll `"p1"`, user `"u1"`) already in
the table, `submitVote` performs no pre-insert query (`selects = 0`), does
not fail with a duplicate-response error (it succeeds), and inserts anyway,
leaving two rows for the pair. -/
theorem submitVote_no_precheck_cex :
    (submitVote (some "u1") okVoteBeh [⟨"p1", some "u1", some "o1", none, none⟩] "p1" "o2").selects = 0 ∧
    (submitVote (some "u1") okVoteBeh [⟨"p1", some "u1", some "o1", none, none⟩] "p1" "o2").error = none ∧
    countPair (submitVote (some "u1") okVoteBeh [⟨"p1", some "u1", some "o1", none, none⟩] "p1" "o2").store
      "p1" (some "u1") = 2 := by
  refine ⟨by decide, by decide, by decide⟩

/-- C5 (amended): `submitVote` performs no query for an existing (poll,
user) response; every call makes exactly one unconditional insert attempt
and zero reads.  When the store accepts the insert the row is appended and
the call succeeds; when the store rejects it (for example through the
README schema's UNIQUE(poll_id, user_id) constraint, the only duplicate
enforcement for ballot votes), the store's raw error message is returned. -/
theorem submitVote_inserts_unconditionally (session : Option String) (beh : VoteBeh)
    (store : List VoteRow) (pollId optionId : String) :
    (submitVote session beh store pollId optionId).selects = 0 ∧
    (submitVote session beh store pollId optionId).inserts = 1 ∧
    (beh.insertErr = none →
        submitVote session beh store pollId optionId =
          ⟨none, store ++ [⟨pollId, session, some optionId, none, none⟩], 0, 1⟩) ∧
    (∀ e, beh.insertErr = some e →
        submitVote session beh store pollId optionId = ⟨some e.message, store, 0, 1⟩) := by
  cases h : beh.insertErr <;> simp [submitVote, h]

/-- Witness for the amended C5: a concrete successful insert. -/
theorem submitVote_inserts_unconditionally_witness :
    submitVote (some "u1") okVoteBeh [] "p1" "o1" =
      ⟨none, [⟨"p1", some "u1", some "o1", none, none⟩], 0, 1⟩ :=
  (submitVote_inserts_unconditionally (some "u1") okVoteBeh [] "p1" "o1").2.2.1 rfl

/-- C6 counterexample: with no authenticated session, `submitVote` does not
fail with an unauthenticated error — it succeeds and mutates the store,
inserting an anonymous row with a null user reference. -/
theorem submitVote_anonymous_cex :
    (submitVote none okVoteBeh [] "p1" "o1").error = none ∧
    (submitVote none okVoteBeh [] "p1" "o1").store = [⟨"p1", none, some "o1", none, none⟩] ∧
    (submitVote none okVoteBeh [] "p1" "o1").inserts = 1 := by
  refine ⟨by decide, by decide, by decide⟩

/-- C6 (amended): `submitVote` performs no authentication check — the
login-requirement gate in the source is commented out and anonymous voting
is allowed.  With no session it performs no read and, when the store
accepts the insert, appends the vote with `user_id = null` and succeeds. -/
theorem submitVote_no_auth_gate (beh : VoteBeh) (store : List VoteRow)
    (pollId optionId : String) :
    (submitVote none beh store pollId optionId).selects = 0 ∧
    (beh.insertErr = none →
        submitVote none beh store pollId optionId =
          ⟨none, store ++ [⟨pollId, none, some optionId, none, none⟩], 0, 1⟩) := by
  cases h : beh.insertErr <;> simp [submitVote, h]

/-- Witness for the amended C6: a concrete anonymous vote is stored. -/
theorem submitVote_no_auth_gate_witness :
    submitVote none okVoteBeh [] "p" "o" = ⟨none, [⟨"p", none, some "o", none, none⟩], 0, 1⟩ :=
  (submitVote_no_auth_gate okVoteBeh [] "p" "o").2 rfl

/-- A row of the `polls` table (fields used by the actions). -/
structure PollRow where
  id : String
  title : String
  created_by : Option String
deriving DecidableEq

/-- A row of the `poll_options` table as written by `createPoll`. -/
structure OptionRow where
  poll_id : String
  option_text : String
  option_order : Nat
deriving DecidableEq

/-- The modelled store: the three tables the poll actions touch. -/
structure DB where
  polls : List PollRow
  poll_options : List OptionRow
  votes : List VoteRow
deriving DecidableEq

/-- Outcome of `supabase.auth.getUser()` as destructured by `createPoll`:
a user, no user, or an auth error (whose message is returned). -/
inductive GetUserOutcome where
  | ok (uid : String)
  | noUser
  | failed (message : String)

/-- Injected store outcomes for one `createPoll` run: the poll insert either
returns the generated id or fails; the options insert either succeeds or
fails. -/
structure CreateBeh where
  pollInsert : Except StoreErr String
  optionsInsert : Option StoreErr

/-- The value returned by `createPoll` (`{ error }`) with the resulting
store. -/
structure CreateOutcome where
  error : Option String
  db : DB
deriving DecidableEq

/-- The option rows built by `createPoll`: one row per (filtered) option
text, with `option_order` preserving the submitted index. -/
def optionRowsFor (pid : String) (opts : List String) : List OptionRow :=
  opts.enum.map (fun p => ⟨pid, p.2, p.1⟩)

/-- Embedding of `createPoll(formData)` from
`app/lib/actions/poll-actions.ts`.  The form's `question` field may be
absent (`none`); `options` values are filtered by JavaScript truthiness
(empty strings dropped).  Validation runs first, then the authentication
gate, then the poll insert, then the options insert; a failed options
insert returns an error but performs no compensating delete of the already
committed poll row. -/
def createPoll (auth : GetUserOutcome) (beh : CreateBeh) (db : DB)
    (question : Option String) (rawOptions : List String) : CreateOutcome :=
  let q := question.getD ""
  let opts := rawOptions.filter (fun s => s ≠ "")
  if q = "" ∨ opts.length < 2 then
    ⟨some "Please provide a question and at least two options.", db⟩
  else
    match auth with
    | .failed m => ⟨some m, db⟩
    | .noUser => ⟨some "You must be logged in to create a poll.", db⟩
    | .ok uid =>
      match beh.pollInsert with
      | .error e => ⟨some ("Failed to create poll: " ++ e.message), db⟩
      | .ok pid =>
        let db1 : DB := { db with polls := db.polls ++ [⟨pid, q, some uid⟩] }
        match beh.optionsInsert with
        | some e => ⟨some ("Failed to create poll options: " ++ e.message), db1⟩
        | none => ⟨none, { db1 with poll_options := db1.poll_options ++ optionRowsFor pid opts }⟩

/-- C7: for a call passing validation (non-empty question, at least two
non-empty options) and authentication, the poll row is committed first and
the option rows second: if the options insert fails after the poll insert
succeeded, the call returns an error while the poll row remains in the
store with no option rows added (orphaned, no compensating delete); if both
inserts succeed, the poll row and its option rows are both present. -/
theorem createPoll_orphan_on_options_failure (uid pid q : String) (raw : List String)
    (db : DB) (e : StoreErr) (hq : q ≠ "")
    (hlen : 2 ≤ (raw.filter (fun s => s ≠ "")).length) :
    (createPoll (.ok uid) ⟨.ok pid, some e⟩ db (some q) raw =
        ⟨some ("Failed to create poll options: " ++ e.message),
          { db with polls := db.polls ++ [⟨pid, q, some uid⟩] }⟩) ∧
    (createPoll (.ok uid) ⟨.ok pid, none⟩ db (some q) raw =
        ⟨none, ⟨db.polls ++ [⟨pid, q, some uid⟩],
                db.poll_options ++ optionRowsFor pid (raw.filter (fun s => s ≠ "")),
                db.votes⟩⟩) := by
  have hlen2 : 2 ≤ (raw.filter (fun s => !decide (s = ""))).length := by
    simpa using hlen
  constructor <;> simp [createPoll, hq, hlen2, Nat.not_lt.mpr hlen2]

/-- Witness for C7: a concrete options-insert failure leaves the orphaned
poll row behind. -/
theorem createPoll_orphan_witness :
    createPoll (.ok "u1") ⟨.ok "p1", some ⟨"500", "disk full"⟩⟩ ⟨[], [], []⟩
        (some "Q?") ["A", "B"] =
      ⟨some ("Failed to create poll options: " ++ "disk full"),
        ⟨[⟨"p1", "Q?", some "u1"⟩], [], []⟩⟩ :=
  (createPoll_orphan_on_options_failure "u1" "p1" "Q?" ["A", "B"] ⟨[], [], []⟩
    ⟨"500", "disk full"⟩ (by decide) (by decide)).1

/-- Modelled row-level-security predicate of the store's delete on `polls`,
from the README schema: `CREATE POLICY "Users can delete own polls" ON polls
FOR DELETE USING (auth.uid() = created_by)`.  An anonymous requester
(`auth.uid()` null) never satisfies it. -/
def rlsCanDelete (requester : Option String) (p : PollRow) : Bool :=
  match requester with
  | some u => p.created_by == some u
  | none => false

/-- A poll row removed by `deletePoll`: it matches the requested id and the
requester passes the delete policy. -/
def targetPoll (requester : Option String) (pid : String) (p : PollRow) : Bool :=
  p.id == pid && rlsCanDelete requester p

/-- Identifiers of the poll rows the store's delete removes. -/
def removedPollIds (requester : Option String) (db : DB) (pid : String) : List String :=
  (db.polls.filter (targetPoll requester pid)).map PollRow.id

/-- The value returned by `deletePoll` (`{ error }`) with the resulting
store. -/
structure DeleteOutcome where
  error : Option String
  db : DB
deriving DecidableEq

/-- Embedding of `deletePoll(id)` from `app/lib/actions/poll-actions.ts`:
a single store delete on `polls` filtered by `id`, restricted by the README
delete policy to rows owned by the requester, with the README schema's
`ON DELETE CASCADE` removing the dependent option and vote rows of every
removed poll.  A delete matching no rows is not a store error. -/
def deletePoll (requester : Option String) (beh : Option StoreErr) (db : DB)
    (pid : String) : DeleteOutcome :=
  match beh with
  | some e => ⟨some e.message, db⟩
  | none =>
    ⟨none,
      ⟨db.polls.filter (fun p => !(targetPoll requester pid p)),
       db.poll_options.filter (fun o => !(decide (o.poll_id ∈ removedPollIds requester db pid))),
       db.votes.filter (fun v => !(decide (v.poll_id ∈ removedPollIds requester db pid)))⟩⟩

/-- C8: the store's delete policy makes poll deletion effective only for
the poll's creator.  If the requester is not the creator of any poll with
the requested id, the call removes nothing (the store is returned
unchanged, with no error).  If a poll with the requested id belongs to the
requester, that poll row is removed and, by cascade, no option or vote row
referencing the requested id survives. -/
theorem deletePoll_creator_only (requester : Option String) (db : DB) (pid : String) :
    ((∀ p ∈ db.polls, p.id = pid → rlsCanDelete requester p = false) →
        deletePoll requester none db pid = ⟨none, db⟩) ∧
    (∀ p ∈ db.polls, p.id = pid → (∃ u, requester = some u ∧ p.created_by = some u) →
        p ∉ (deletePoll requester none db pid).db.polls ∧
        (∀ o ∈ (deletePoll requester none db pid).db.poll_options, o.poll_id ≠ pid) ∧
        (∀ v ∈ (deletePoll requester none db pid).db.votes, v.poll_id ≠ pid)) := by
  constructor
  · intro hno
    have htf : ∀ p ∈ db.polls, targetPoll requester pid p = false := by
      intro p hp
      by_cases hid : p.id = pid
      · simp [targetPoll, hid, hno p hp hid]
      · simp [targetPoll, hid]
    have hnil : db.polls.filter (targetPoll requester pid) = [] := by
      rw [List.filter_eq_nil_iff]
      intro p hp
      simp [htf p hp]
    have hself : db.polls.filter (fun p => !(targetPoll requester pid p)) = db.polls := by
      rw [List.filter_eq_self]
      intro p hp
      simp [htf p hp]
    simp [deletePoll, removedPollIds, hnil, hself]
  · intro p hp hid hex
    obtain ⟨u, hru, hcu⟩ := hex
    subst hru
    have htarget : targetPoll (some u) pid p = true := by
      simp [targetPoll, rlsCanDelete, hid, hcu]
    have hpidmem : pid ∈ removedPollIds (some u) db pid := by
      have hpmem : p ∈ db.polls.filter (targetPoll (some u) pid) :=
        List.mem_filter.mpr ⟨hp, htarget⟩
      simpa [removedPollIds, hid] using List.mem_map_of_mem PollRow.id hpmem
    refine ⟨?_, ?_, ?_⟩
    · intro hmem
      have h2 := (List.mem_filter.mp hmem).2
      simp [htarget] at h2
    · intro o ho heq
      have h2 := (List.mem_filter.mp ho).2
      rw [heq] at h2
      simp [hpidmem] at h2
    · intro v hv heq
      have h2 := (List.mem_filter.mp hv).2
      rw [heq] at h2
      simp [hpidmem] at h2

/-- Witness for C8: the creator's delete removes the poll; a stranger's
delete leaves the store untouched. -/
theorem deletePoll_creator_only_witness :
    deletePoll (some "mallory") none
        ⟨[⟨"p1", "T", some "alice"⟩], [⟨"p1", "A", 0⟩], []⟩ "p1" =
      ⟨none, ⟨[⟨"p1", "T", some "alice"⟩], [⟨"p1", "A", 0⟩], []⟩⟩ ∧
    (⟨"p1", "T", some "alice"⟩ : PollRow) ∉
      (deletePoll (some "alice") none
        ⟨[⟨"p1", "T", some "alice"⟩], [⟨"p1", "A", 0⟩], []⟩ "p1").db.polls :=
  ⟨(deletePoll_creator_only (some "mallory")
      ⟨[⟨"p1", "T", some "alice"⟩], [⟨"p1", "A", 0⟩], []⟩ "p1").1 (by decide),
   ((deletePoll_creator_only (some "alice")
      ⟨[⟨"p1", "T", some "alice"⟩], [⟨"p1", "A", 0⟩], []⟩ "p1").2
      ⟨"p1", "T", some "alice"⟩ (by decide) rfl ⟨"alice", rfl, rfl⟩).1⟩

end AlxPolly
